import Mathlib

/-!
Formal model of the wallet-connection controller, balance/stats fetch relay
and refine/submit flow of the Self-Refining Portfolio Agent front end.

The definitions are shallow embeddings of the TypeScript source:
* `WalletContext` (wallet state machine, polling, monitoring, reconnect),
* `stellarService` (`getContractStats`, `refineStrategy`, `getCooldownRemaining`),
* the `GET /api/portfolio/stats` and `POST /api/portfolio/refine` route handlers,
* `PortfolioMetrics.fetchContractStats` (bounded retry with exponential backoff).

External collaborators (wallet extension, Horizon ledger API, Soroban RPC) are
modelled as explicit environment parameters; JavaScript numbers are modelled as
`Rat`, nullable values as `Option`, and thrown exceptions as `Except`.
-/

namespace Portfolio

/-- JavaScript `String.prototype.trim`: strip leading and trailing whitespace.
Defined over the character list so that it evaluates by kernel reduction. -/
def jsTrim (s : String) : String :=
  ⟨((s.data.dropWhile Char.isWhitespace).reverse.dropWhile Char.isWhitespace).reverse⟩

/-- JavaScript `String.prototype.startsWith`. -/
def jsStartsWith (s pre : String) : Bool :=
  pre.data.isPrefixOf s.data

/-- JavaScript `String.prototype.toLowerCase` (ASCII case mapping). -/
def jsToLower (s : String) : String :=
  ⟨s.data.map Char.toLower⟩

/-- Substring containment, modelling JavaScript `String.prototype.includes`. -/
def containsSubstring (hay needle : String) : Bool :=
  hay.toList.tails.any fun t => needle.toList.isPrefixOf t

theorem containsSubstring_iff (hay needle : String) :
    containsSubstring hay needle = true ↔ needle.toList <:+: hay.toList := by
  unfold containsSubstring
  rw [List.any_eq_true, List.infix_iff_prefix_suffix]
  constructor
  · rintro ⟨t, ht, hp⟩
    exact ⟨t, List.isPrefixOf_iff_prefix.mp hp, (List.mem_tails _ _).mp ht⟩
  · rintro ⟨t, hp, ht⟩
    exact ⟨t, (List.mem_tails _ _).mpr ht, List.isPrefixOf_iff_prefix.mpr hp⟩

/-! ## Wallet state (WalletContext.tsx) -/

/-- The `WalletState` record from `WalletContext.tsx`. -/
structure WalletState where
  address : Option String
  isAuthorized : Bool
  network : String
  isLoading : Bool
  error : Option String
  balance : Option String
  isWalletLocked : Bool
  deriving Repr, DecidableEq

/-- The initial state passed to `useState` in `WalletProvider`. -/
def initialWalletState : WalletState :=
  { address := none, isAuthorized := false, network := "TESTNET",
    isLoading := false, error := none, balance := none, isWalletLocked := false }

/-- One entry of `account.balances` returned by Horizon `loadAccount`. -/
structure BalanceEntry where
  asset_type : String
  balance : String
  deriving Repr, DecidableEq

/-- The observable part of a Horizon error: `error.response?.status`. -/
structure HorizonErr where
  status : Option Int
  deriving Repr, DecidableEq

/-- Result of one `fetchBalance` call: the updated wallet state plus whether a
network call was issued and whether the invalid-input warning was logged. -/
structure FetchBalanceOut where
  state : WalletState
  networkCall : Bool
  warned : Bool
  deriving Repr, DecidableEq

/-- Function `fetchBalance` from `WalletContext.tsx`.  `loadAccount` is the outcome of
`server.loadAccount(publicKey)`: the account's balance entries on success, the
caught error otherwise. -/
def fetchBalance (loadAccount : Except HorizonErr (List BalanceEntry))
    (publicKey : String) (s : WalletState) : FetchBalanceOut :=
  if publicKey = "" ∨ jsTrim publicKey = "" then
    -- console.warn('[fetchBalance] Invalid public key'); return
    ⟨s, false, true⟩
  else
    match loadAccount with
    | .ok balances =>
      match balances.find? (fun b => b.asset_type == "native") with
      | some nativeBalance => ⟨{ s with balance := some nativeBalance.balance }, true, false⟩
      | none => ⟨{ s with balance := some "0" }, true, false⟩
    | .error e =>
      if e.status = some 404 then
        ⟨{ s with balance := some "10000.00" }, true, false⟩
      else
        ⟨{ s with balance := some "10000.00" }, true, false⟩

/-! ## Wallet connection controller as a transition system

Timers (`setInterval` handles) are modelled explicitly: `livePolling` is the
list of live polling-interval ids, `pollingRef` is `pollingIntervalRef.current`,
and `nextId` supplies fresh ids.  The monitor interval is live exactly while
`state.address` is non-null (the `useEffect` guard), so it is derived rather
than stored. -/

/-- The persisted `stellar_wallet_connection` localStorage value. -/
structure Persisted where
  address : String
  isAuthorized : Bool
  deriving Repr, DecidableEq

/-- Full controller state: wallet state, polling timer bookkeeping and the
persisted marker. -/
structure Controller where
  ws : WalletState
  pollingRef : Option Nat
  livePolling : List Nat
  nextId : Nat
  storage : Option Persisted
  deriving Repr, DecidableEq

/-- Controller state on mount. -/
def initController : Controller :=
  { ws := initialWalletState, pollingRef := none, livePolling := [],
    nextId := 0, storage := none }

/-- Function `stopPolling`: clear the referenced interval (if any) and null the ref. -/
def stopPolling (c : Controller) : Controller :=
  match c.pollingRef with
  | some i => { c with livePolling := c.livePolling.filter (fun j => j ≠ i), pollingRef := none }
  | none => c

/-- Function `startPolling`: clear any existing interval, then register a fresh one and
store its handle in the ref.  (The immediate `pollForAddress()` call is modelled
as a separate `pollTick` event, since its effects land asynchronously.) -/
def startPolling (c : Controller) : Controller :=
  let c1 :=
    match c.pollingRef with
    | some i => { c with livePolling := c.livePolling.filter (fun j => j ≠ i) }
    | none => c
  { c1 with livePolling := c1.livePolling ++ [c1.nextId],
            pollingRef := some c1.nextId, nextId := c1.nextId + 1 }

/-- JavaScript `addressResponse?.address || null`: empty strings collapse to
`null`. -/
def normAddress (r : Option String) : Option String :=
  match r with
  | some s => if s = "" then none else some s
  | none => none

/-- Events driving the controller.  Calls into the extension and Horizon are
carried on the event as their observed outcomes (`Except` = may throw). -/
inductive WEvent where
  /-- The `connect` call begins: loading is set and the error cleared. -/
  | connectStart
  /-- Call `isConnected()` returned true and `requestAccess()` resolved: `startPolling()`. -/
  | connectGranted
  /-- the `connect` catch block, with the thrown error's message. -/
  | connectFailed (msg : String)
  /-- one `pollForAddress` resolution with the `getAddress()` outcome. -/
  | pollTick (resp : Except Unit (Option String))
  /-- a `fetchBalance(pk)` call resolves with the given load outcome. -/
  | balanceUpdate (acct : Except HorizonErr (List BalanceEntry)) (pk : String)
  /-- The `disconnect()` call. -/
  | disconnectEv
  /-- one monitor `checkConnection` with `isConnected()` / `getAddress()`. -/
  | monitorTick (conn : Except Unit Bool) (addr : Except Unit (Option String))
  /-- the auto-reconnect effect, with the `getAddress()` outcome. -/
  | autoReconnect (addr : Except Unit (Option String))

/-- Deterministic effect of each event, transcribing the handlers in
`WalletContext.tsx`. -/
def step (c : Controller) : WEvent → Controller
  | .connectStart =>
    { c with ws := { c.ws with isLoading := true, error := none } }
  | .connectGranted => startPolling c
  | .connectFailed msg =>
    let c1 := stopPolling c
    { c1 with ws :=
      { c1.ws with
        isLoading := false,
        error := some (if msg = "" then "Failed to connect wallet" else msg),
        isWalletLocked := containsSubstring msg "locked" || containsSubstring msg "denied" } }
  | .pollTick resp =>
    match resp with
    | .error _ => c  -- wallet still locked, continue polling
    | .ok r =>
      match normAddress r with
      | some publicKey =>
        if jsTrim publicKey ≠ "" ∧ jsStartsWith publicKey "G" then
          let c1 := stopPolling c
          { c1 with
            ws := { c1.ws with
              address := some publicKey, isAuthorized := true,
              isWalletLocked := false, error := none, isLoading := false },
            storage := some ⟨publicKey, true⟩ }
        else c
      | none => c
  | .balanceUpdate acct pk =>
    { c with ws := (fetchBalance acct pk c.ws).state }
  | .disconnectEv =>
    let c1 := stopPolling c
    { c1 with ws := initialWalletState, storage := none }
  | .monitorTick conn addr =>
    match conn with
    | .error _ => c  -- silent, normal when locked
    | .ok connected =>
      let c1 :=
        if connected = false ∧ c.ws.address.isSome then
          { c with ws := { c.ws with error := some "Wallet disconnected", isWalletLocked := true } }
        else c
      match addr with
      | .error _ => c1
      | .ok r =>
        if normAddress r = none ∧ c1.ws.address.isSome then
          { c1 with ws := { c1.ws with isWalletLocked := true, error := some "Wallet locked" } }
        else c1
  | .autoReconnect addr =>
    match c.storage with
    | none => c
    | some saved =>
      if saved.address = "" then c
      else
        match addr with
        | .error _ =>
          startPolling { c with ws := { c.ws with isWalletLocked := true } }
        | .ok r =>
          let publicKey := normAddress r
          if publicKey = some saved.address then
            { c with ws := { c.ws with
                address := publicKey, isAuthorized := true, isWalletLocked := false } }
          else startPolling c

/-- Enabling condition for an event: poll ticks require a live polling ref and
monitor ticks require the monitor effect to be active (`address` non-null). -/
def enabled (c : Controller) : WEvent → Prop
  | .pollTick _ => c.pollingRef.isSome
  | .monitorTick _ _ => c.ws.address.isSome
  | _ => True

/-- Reachable controller states: the initial state closed under enabled
events. -/
inductive Reachable : Controller → Prop where
  | init : Reachable initController
  | step : ∀ (c : Controller) (e : WEvent), Reachable c → enabled c e → Reachable (step c e)

/-! ## PortfolioMetrics stats fetch (bounded retry) -/

/-- The `ContractStats` record as consumed by `PortfolioMetrics`. -/
structure ContractStats where
  score : Rat
  transactions : Rat
  source : String
  timestamp : Option String
  deriving Repr, DecidableEq

/-- Component state touched by `fetchContractStats`. -/
structure StatsState where
  contractStats : Option ContractStats
  statsLoading : Bool
  statsError : Option String
  deriving Repr, DecidableEq

/-- Function `fetchContractStats(retries, delay)` from `PortfolioMetrics.tsx`.
`outcomes i` is the observed outcome of the `i`-th fetch attempt (`some` when
the response parsed to `{success: true, data}`, `none` when the fetch threw or
the payload failed the check).  Returns the final component state together with
the list of `setTimeout` delays scheduled, in order. -/
def fetchContractStats (outcomes : Nat → Option ContractStats) :
    Nat → Nat → Nat → StatsState → StatsState × List Nat
  | retries, delay, idx, s =>
    let s0 := { s with statsLoading := true, statsError := none }
    match outcomes idx with
    | some data =>
      ({ s0 with contractStats := some data, statsLoading := false }, [])
    | none =>
      match retries with
      | r + 1 =>
        let rest := fetchContractStats outcomes r (delay * 2) (idx + 1) s0
        (rest.1, delay :: rest.2)
      | 0 =>
        ({ s0 with
            statsError := some "Failed to load contract statistics after multiple attempts",
            statsLoading := false }, [])

/-! ## stellarService: getContractStats and the stats route -/

/-- Native JavaScript values produced by `scValToNative`. -/
inductive NativeVal where
  | num (n : Rat)
  | big (n : Int)
  | str (s : String)
  | arr (elems : List NativeVal)
  | map (entries : List (String × NativeVal))
  | other

/-- The `PortfolioStats` record from `stellarService.ts` (`timestamp` is optional in the
TypeScript interface). -/
structure PortfolioStats where
  score : Rat
  transactions : Rat
  timestamp : Option String
  source : String
  deriving Repr, DecidableEq

/-- Constant `FALLBACK_DATA`, whose timestamp is taken at module load. -/
def FALLBACK_DATA (moduleTime : String) : PortfolioStats :=
  { score := 87/10, transactions := 142, timestamp := some moduleTime, source := "fallback" }

/-- Score/transactions pair produced by `parseContractResult`. -/
structure ParsedStats where
  score : Rat
  transactions : Rat
  deriving Repr, DecidableEq

/-- Function `parseContractResult` applied to the already-converted native value. -/
def parseContractResult (v : NativeVal) : ParsedStats :=
  match v with
  | .arr elems =>
    if elems.length ≥ 2 then
      let score := elems.getD 0 .other
      let trades := elems.getD 1 .other
      { score := match score with | .num n => n / 10 | _ => 87/10,
        transactions := match trades with | .num n => n | _ => 142 }
    else
      { score := 87/10, transactions := 142 }
  | .map entries =>
    let score := (entries.lookup "score").getD (.num 87)
    let transactions := (entries.lookup "transactions").getD (.num 142)
    { score := match score with | .num n => n / 10 | _ => 87/10,
      transactions := match transactions with | .num n => n | _ => 142 }
  | _ => { score := 87/10, transactions := 142 }

/-- Outcome of `server.simulateTransaction` for the read-only `get_metrics`
call: success carries the optional `result?.retval` as a native value. -/
inductive StatsSimOutcome where
  | success (retval : Option NativeVal)
  | failure

/-- Environment of one `getContractStats` call: the configured contract id, the
simulation outcome (`Except.error` = any thrown error, including the 10 s
timeout), the current time and the module-load time. -/
structure StatsEnv where
  contractId : String
  simulate : Except Unit StatsSimOutcome
  now : String
  moduleTime : String

/-- Function `getContractStats` from `stellarService.ts`. -/
def getContractStats (env : StatsEnv) : PortfolioStats :=
  if env.contractId = "" ∨ jsTrim env.contractId = "" then FALLBACK_DATA env.moduleTime
  else
    match env.simulate with
    | .error _ => FALLBACK_DATA env.moduleTime
    | .ok (.success (some retval)) =>
      let stats := parseContractResult retval
      { score := stats.score, transactions := stats.transactions,
        timestamp := some env.now, source := "blockchain" }
    | .ok (.success none) => FALLBACK_DATA env.moduleTime
    | .ok .failure => FALLBACK_DATA env.moduleTime

/-- Holds exactly when the read-only contract call succeeds end to end:
configured contract, successful simulation, present return value. -/
def contractReadSuccess (env : StatsEnv) : Bool :=
  !(env.contractId == "" || jsTrim env.contractId == "") &&
    match env.simulate with
    | .ok (.success (some _)) => true
    | _ => false

/-- JSON response of `GET /api/portfolio/stats`. -/
structure StatsResponse where
  status : Nat
  success : Bool
  error : Option String
  data : PortfolioStats
  deriving Repr, DecidableEq

/-- The `GET` handler in `app/api/portfolio/stats/route.ts`; `res` is the
outcome of `await getContractStats()` (the catch arm handles a throw). -/
def statsGET (res : Except Unit PortfolioStats) (now : String) : StatsResponse :=
  match res with
  | .ok stats => { status := 200, success := true, error := none, data := stats }
  | .error _ =>
    { status := 200, success := false,
      error := some "Failed to fetch portfolio statistics",
      data := { score := 87/10, transactions := 142, timestamp := some now,
                source := "fallback" } }

/-! ## stellarService: getCooldownRemaining and refineStrategy -/

/-- Environment of one `getCooldownRemaining` call: `Except.error` stands for
any thrown error; `ok none` for a failed simulation or missing return value;
`ok (some v)` carries the native return value. -/
structure CooldownEnv where
  result : Except Unit (Option NativeVal)

/-- Function `getCooldownRemaining` from `stellarService.ts`: never throws, yields the
native value when it is a JavaScript number and `0` in every other case. -/
def getCooldownRemaining (e : CooldownEnv) : Rat :=
  match e.result with
  | .error _ => 0
  | .ok none => 0
  | .ok (some v) =>
    match v with
    | .num n => n
    | _ => 0

/-- The `RefineStrategyResponse` record from `stellarService.ts`. -/
structure RefineStrategyResponse where
  success : Bool
  message : String
  error : Option String
  cooldownRemaining : Option Rat
  transactionXDR : Option String
  deriving Repr, DecidableEq

/-- Outcome of the `refine_strategy` simulation: prepared XDR on success, the
`error` field plus the full `JSON.stringify(simulationResult)` text on a failed
simulation, or a thrown exception's message. -/
inductive SimulateOutcome where
  | ok (xdr : String)
  | fail (errField : String) (jsonText : String)
  | thrown (msg : String)

/-- Environment of one `refineStrategy` call.  The three cooldown environments
correspond to the three distinct `getCooldownRemaining()` call sites. -/
structure RefineEnv where
  cooldownFirst : CooldownEnv
  contractId : String
  accountLoad : Except Unit Unit
  simulate : SimulateOutcome
  cooldownRecheck : CooldownEnv
  cooldownOnThrow : CooldownEnv

/-- Externally visible steps of `refineStrategy`, used to state that the
cooldown guard short-circuits before any simulation. -/
inductive RefineStep where
  | cooldownCheck
  | accountLoad
  | simulate
  | cooldownRecheck
  deriving Repr, DecidableEq

/-- Function `refineStrategy` from `stellarService.ts`, returning the response together
with the ordered trace of external steps it performed. -/
def refineStrategy (env : RefineEnv) (walletAddress : String)
    (performanceMetric : Rat) : RefineStrategyResponse × List RefineStep :=
  let _ := (walletAddress, performanceMetric)  -- operands of the contract call
  let cooldownRemaining := getCooldownRemaining env.cooldownFirst
  if cooldownRemaining > 0 then
    ({ success := false,
       message := s!"Strategy refinement is on cooldown. Please wait {cooldownRemaining} seconds.",
       error := some "COOLDOWN_ACTIVE",
       cooldownRemaining := some cooldownRemaining,
       transactionXDR := none }, [.cooldownCheck])
  else if env.contractId = "" ∨ jsTrim env.contractId = "" then
    ({ success := false, message := "Contract ID not configured",
       error := some "UNKNOWN_ERROR", cooldownRemaining := none,
       transactionXDR := none }, [.cooldownCheck])
  else
    match env.accountLoad with
    | .error _ =>
      ({ success := false,
         message := "Failed to load wallet account. Please ensure it is funded on Testnet.",
         error := some "UNKNOWN_ERROR", cooldownRemaining := none,
         transactionXDR := none }, [.cooldownCheck, .accountLoad])
    | .ok _ =>
      match env.simulate with
      | .ok xdr =>
        ({ success := true,
           message := "Transaction simulated successfully. Signing required.",
           error := none, cooldownRemaining := none,
           transactionXDR := some xdr }, [.cooldownCheck, .accountLoad, .simulate])
      | .fail errField jsonText =>
        let errorString := jsToLower jsonText
        if containsSubstring errorString "unreachablecodereached" ||
           containsSubstring errorString "vm call trapped" ||
           containsSubstring errorString "unreachable" then
          let remaining := getCooldownRemaining env.cooldownRecheck
          ({ success := false,
             message := s!"Strategy refinement is on cooldown. Please wait {remaining} seconds.",
             error := some "COOLDOWN_ACTIVE",
             cooldownRemaining := some remaining,
             transactionXDR := none },
           [.cooldownCheck, .accountLoad, .simulate, .cooldownRecheck])
        else
          ({ success := false, message := s!"Simulation failed: {errField}",
             error := some "SIMULATION_FAILED", cooldownRemaining := none,
             transactionXDR := none }, [.cooldownCheck, .accountLoad, .simulate])
      | .thrown msg =>
        if containsSubstring msg "UnreachableCodeReached" then
          let remaining := getCooldownRemaining env.cooldownOnThrow
          ({ success := false,
             message := s!"Strategy refinement is on cooldown. Please wait {remaining} seconds.",
             error := some "COOLDOWN_ACTIVE",
             cooldownRemaining := some remaining,
             transactionXDR := none },
           [.cooldownCheck, .accountLoad, .simulate, .cooldownRecheck])
        else
          ({ success := false, message := msg, error := some "UNKNOWN_ERROR",
             cooldownRemaining := none, transactionXDR := none },
           [.cooldownCheck, .accountLoad, .simulate])

/-! ## The POST /api/portfolio/refine route -/

/-- Parsed request body: `walletAddress` is `none` when absent or not a string;
`performanceMetric` defaults to 10 when absent. -/
structure RefineRequest where
  walletAddress : Option String
  performanceMetric : Option Rat

/-- Environment of the route handler: the service environment plus the
route-level `getCooldownRemaining()` call site. -/
structure RouteEnv where
  refineEnv : RefineEnv
  routeCooldown : CooldownEnv

/-- JSON response of `POST /api/portfolio/refine` (all optional fields of the
various response shapes unified). -/
structure RefineRouteResult where
  status : Nat
  success : Bool
  message : Option String
  error : Option String
  cooldownRemaining : Option Rat
  transactionXDR : Option String
  deriving Repr, DecidableEq

/-- Embed a service response into the route's JSON shape with a status. -/
def relayResult (status : Nat) (r : RefineStrategyResponse) : RefineRouteResult :=
  { status := status, success := r.success, message := some r.message,
    error := r.error, cooldownRemaining := r.cooldownRemaining,
    transactionXDR := r.transactionXDR }

/-- The `POST` handler in `app/api/portfolio/refine/route.ts`; `parse` is the
outcome of `await request.json()` (its `Except.error` carries the exception
message reaching the outer catch). -/
def refinePOST (parse : Except String RefineRequest) (env : RouteEnv) :
    RefineRouteResult :=
  match parse with
  | .error msg =>
    { status := 500, success := false,
      message := some "Failed to process refinement request",
      error := some msg, cooldownRemaining := none, transactionXDR := none }
  | .ok body =>
    match body.walletAddress with
    | none =>
      { status := 400, success := false, message := none,
        error := some "Wallet address is required",
        cooldownRemaining := none, transactionXDR := none }
    | some walletAddress =>
      if walletAddress = "" then
        { status := 400, success := false, message := none,
          error := some "Wallet address is required",
          cooldownRemaining := none, transactionXDR := none }
      else
        let performanceMetric := body.performanceMetric.getD 10
        let result := (refineStrategy env.refineEnv walletAddress performanceMetric).1
        if result.success = false ∧ result.error = some "COOLDOWN_ACTIVE" then
          relayResult 400 result
        else
          let errorMessage := jsToLower result.message
          if result.success = false ∧ result.error = some "SIMULATION_FAILED" ∧
             (containsSubstring errorMessage "unreachablecodereached" ||
              containsSubstring errorMessage "vm call trapped" ||
              containsSubstring errorMessage "unreachable") = true then
            { status := 400, success := false,
              message := some "Strategy optimization is recharging",
              error := some "COOLDOWN_ACTIVE",
              cooldownRemaining := some (getCooldownRemaining env.routeCooldown),
              transactionXDR := none }
          else
            relayResult (if result.success then 200 else 400) result

/-! ## Helper lemmas -/

theorem fetchBalance_address (acct : Except HorizonErr (List BalanceEntry))
    (pk : String) (s : WalletState) :
    (fetchBalance acct pk s).state.address = s.address := by
  unfold fetchBalance
  repeat' split
  all_goals rfl

theorem fetchBalance_isAuthorized (acct : Except HorizonErr (List BalanceEntry))
    (pk : String) (s : WalletState) :
    (fetchBalance acct pk s).state.isAuthorized = s.isAuthorized := by
  unfold fetchBalance
  repeat' split
  all_goals rfl

theorem startPolling_ws (c : Controller) : (startPolling c).ws = c.ws := by
  unfold startPolling
  cases c.pollingRef <;> rfl

theorem stopPolling_ws (c : Controller) : (stopPolling c).ws = c.ws := by
  unfold stopPolling
  cases h : c.pollingRef <;> simp [h]

theorem startPolling_storage (c : Controller) : (startPolling c).storage = c.storage := by
  unfold startPolling
  cases c.pollingRef <;> rfl

/-- Timer bookkeeping invariant: the live polling intervals are exactly the one
referenced by `pollingIntervalRef`, if any. -/
def TimerInv (c : Controller) : Prop :=
  (c.pollingRef = none ∧ c.livePolling = []) ∨
  (∃ i, c.pollingRef = some i ∧ c.livePolling = [i])

theorem stopPolling_timer (c : Controller) (h : TimerInv c) :
    (stopPolling c).pollingRef = none ∧ (stopPolling c).livePolling = [] := by
  unfold stopPolling
  rcases h with ⟨h1, h2⟩ | ⟨i, h1, h2⟩ <;> simp [h1, h2]

theorem startPolling_timer (c : Controller) (h : TimerInv c) :
    (startPolling c).pollingRef = some c.nextId ∧
    (startPolling c).livePolling = [c.nextId] := by
  unfold startPolling
  rcases h with ⟨h1, h2⟩ | ⟨i, h1, h2⟩ <;> simp [h1, h2]

theorem timerInv_init : TimerInv initController := by
  left; exact ⟨rfl, rfl⟩

theorem timerInv_startPolling (c : Controller) (h : TimerInv c) :
    TimerInv (startPolling c) := by
  right
  exact ⟨c.nextId, (startPolling_timer c h).1, (startPolling_timer c h).2⟩

theorem timerInv_stopPolling (c : Controller) (h : TimerInv c) :
    TimerInv (stopPolling c) := by
  left
  exact ⟨(stopPolling_timer c h).1, (stopPolling_timer c h).2⟩

theorem timerInv_of_eq (c c' : Controller) (h1 : c'.pollingRef = c.pollingRef)
    (h2 : c'.livePolling = c.livePolling) (h : TimerInv c) : TimerInv c' := by
  unfold TimerInv at h ⊢
  rw [h1, h2]
  exact h

theorem monitorTick_timers (c : Controller) (conn : Except Unit Bool)
    (addr : Except Unit (Option String)) :
    (step c (.monitorTick conn addr)).pollingRef = c.pollingRef ∧
    (step c (.monitorTick conn addr)).livePolling = c.livePolling := by
  simp only [step]
  rcases conn with _ | connected
  · exact ⟨rfl, rfl⟩
  · constructor <;> (repeat' split) <;> rfl

theorem timerInv_step (c : Controller) (e : WEvent) (h : TimerInv c) :
    TimerInv (step c e) := by
  cases e with
  | connectStart => exact h
  | connectGranted => exact timerInv_startPolling c h
  | connectFailed msg => exact timerInv_stopPolling c h
  | pollTick resp =>
    rcases resp with _ | r
    · exact h
    · rcases hn : normAddress r with _ | pk
      · simp only [step, hn]; exact h
      · simp only [step, hn]
        split
        · exact timerInv_stopPolling c h
        · exact h
  | balanceUpdate acct pk => exact h
  | disconnectEv => exact timerInv_stopPolling c h
  | monitorTick conn addr =>
    have ht := monitorTick_timers c conn addr
    unfold TimerInv at h ⊢
    rw [ht.1, ht.2]
    exact h
  | autoReconnect addr =>
    cases hs : c.storage with
    | none => simp only [step, hs]; exact h
    | some saved =>
      rcases addr with _ | r
      · simp only [step, hs]
        split
        · exact h
        · exact timerInv_startPolling _ (timerInv_of_eq c _ rfl rfl h)
      · simp only [step, hs]
        split
        · exact h
        · split
          · exact timerInv_of_eq c _ rfl rfl h
          · exact timerInv_startPolling c h

theorem reachable_timerInv (c : Controller) (hr : Reachable c) : TimerInv c := by
  induction hr with
  | init => exact timerInv_init
  | step c' e _ _ ih => exact timerInv_step c' e ih

/-- Authorization invariant: `isAuthorized` implies a non-null `address`. -/
def AuthInv (c : Controller) : Prop :=
  c.ws.isAuthorized = true → c.ws.address.isSome = true

theorem monitorTick_ws_frame (c : Controller) (conn : Except Unit Bool)
    (addr : Except Unit (Option String)) :
    (step c (.monitorTick conn addr)).ws.address = c.ws.address ∧
    (step c (.monitorTick conn addr)).ws.isAuthorized = c.ws.isAuthorized ∧
    (step c (.monitorTick conn addr)).ws.balance = c.ws.balance := by
  simp only [step]
  rcases conn with _ | connected
  · exact ⟨rfl, rfl, rfl⟩
  · refine ⟨?_, ?_, ?_⟩ <;> (repeat' split) <;> rfl

theorem authInv_step (c : Controller) (e : WEvent) (h : AuthInv c) :
    AuthInv (step c e) := by
  cases e with
  | connectStart => exact h
  | connectGranted =>
    intro ha
    simp only [step, startPolling_ws] at ha ⊢
    exact h ha
  | connectFailed msg =>
    intro ha
    simp only [step, stopPolling_ws] at ha ⊢
    exact h ha
  | pollTick resp =>
    rcases resp with _ | r
    · exact h
    · rcases hn : normAddress r with _ | pk
      · simp only [step, hn]; exact h
      · simp only [step, hn]
        split
        · intro _; rfl
        · exact h
  | balanceUpdate acct pk =>
    intro ha
    simp only [step] at ha ⊢
    rw [fetchBalance_isAuthorized] at ha
    rw [fetchBalance_address]
    exact h ha
  | disconnectEv =>
    intro ha
    simp only [step] at ha
    exact absurd ha (by simp [initialWalletState])
  | monitorTick conn addr =>
    have hf := monitorTick_ws_frame c conn addr
    intro ha
    rw [hf.2.1] at ha
    rw [hf.1]
    exact h ha
  | autoReconnect addr =>
    cases hs : c.storage with
    | none => simp only [step, hs]; exact h
    | some saved =>
      rcases addr with _ | r
      · simp only [step, hs]
        split
        · exact h
        · intro ha
          rw [startPolling_ws] at ha ⊢
          exact h ha
      · simp only [step, hs]
        split
        · exact h
        · split
          · rename_i hpk
            intro _
            show (normAddress r).isSome = true
            rw [hpk]
            rfl
          · intro ha
            rw [startPolling_ws] at ha ⊢
            exact h ha

theorem reachable_authInv (c : Controller) (hr : Reachable c) : AuthInv c := by
  induction hr with
  | init => intro ha; exact absurd ha (by simp [initController, initialWalletState])
  | step c' e _ _ ih => exact authInv_step c' e ih

/-! ## Claim theorems: wallet controller -/

/-- C3: after every state transition of the wallet controller (initial state,
polling success, connect error, disconnect, auto-reconnect, monitor lock), the
connection-state invariant holds: whenever `isAuthorized` is true, `address`
is non-null. -/
theorem c3_auth_implies_address (c : Controller) (hr : Reachable c)
    (hauth : c.ws.isAuthorized = true) : c.ws.address.isSome = true :=
  reachable_authInv c hr hauth

theorem c3_auth_implies_address_witness :
    (step (step initController .connectGranted)
        (.pollTick (.ok (some "GTEST")))).ws.isAuthorized = true ∧
    (step (step initController .connectGranted)
        (.pollTick (.ok (some "GTEST")))).ws.address.isSome = true := by
  refine ⟨by decide, c3_auth_implies_address _ ?_ (by decide)⟩
  refine Reachable.step _ _ (Reachable.step _ _ Reachable.init trivial) ?_
  show (step initController .connectGranted).pollingRef.isSome = true
  decide

/-- C8: no reachable controller state holds two live polling timers, and every
invocation of `startPolling` (hence every `connect`, including two connects in
succession) cancels any existing polling interval before starting a new one,
leaving exactly the freshly created interval live. -/
theorem c8_single_polling_timer (c : Controller) (hr : Reachable c) :
    c.livePolling.length ≤ 1 ∧
    (startPolling c).livePolling = [c.nextId] ∧
    (step c .connectGranted).livePolling.length ≤ 1 := by
  have ht := reachable_timerInv c hr
  have hs := startPolling_timer c ht
  refine ⟨?_, hs.2, ?_⟩
  · rcases ht with ⟨_, h2⟩ | ⟨i, _, h2⟩ <;> simp [h2]
  · show (startPolling c).livePolling.length ≤ 1
    rw [hs.2]
    simp

theorem c8_single_polling_timer_witness :
    initController.livePolling.length ≤ 1 ∧
    (startPolling initController).livePolling = [initController.nextId] :=
  ⟨(c8_single_polling_timer initController Reachable.init).1,
   (c8_single_polling_timer initController Reachable.init).2.1⟩

/-- C5: `disconnect()` from any reachable state clears `address`,
`isAuthorized`, `balance` and `error` (the wallet state returns to its initial
value), removes the persisted marker, stops the polling timer, and leaves a
state in which neither a polling tick nor a monitor tick is enabled, so no
further timer-driven state updates occur. -/
theorem c5_disconnect_resets (c : Controller) (hr : Reachable c) :
    (step c .disconnectEv).ws = initialWalletState ∧
    (step c .disconnectEv).storage = none ∧
    (step c .disconnectEv).pollingRef = none ∧
    (step c .disconnectEv).livePolling = [] ∧
    (∀ resp, ¬ enabled (step c .disconnectEv) (.pollTick resp)) ∧
    (∀ conn addr, ¬ enabled (step c .disconnectEv) (.monitorTick conn addr)) := by
  have ht := reachable_timerInv c hr
  have hs := stopPolling_timer c ht
  refine ⟨rfl, rfl, hs.1, hs.2, ?_, ?_⟩
  · intro resp hen
    have hn : (step c .disconnectEv).pollingRef = none := hs.1
    simp only [enabled] at hen
    rw [hn] at hen
    simp at hen
  · intro conn addr hen
    simp only [enabled] at hen
    exact absurd hen (by decide : ¬ initialWalletState.address.isSome = true)

theorem c5_disconnect_resets_witness :
    (step initController .disconnectEv).ws = initialWalletState ∧
    (step initController .disconnectEv).storage = none ∧
    (step initController .disconnectEv).livePolling = [] :=
  ⟨(c5_disconnect_resets initController Reachable.init).1,
   (c5_disconnect_resets initController Reachable.init).2.1,
   (c5_disconnect_resets initController Reachable.init).2.2.2.1⟩

/-- C7: when the monitor observes a negative signal while an address is held —
the extension reports not-connected, or reports connected but returns no
address — the tick sets `isWalletLocked` and an error message while leaving
`address` and `isAuthorized` unchanged. -/
theorem c7_monitor_negative_signal (c : Controller) (conn : Except Unit Bool)
    (addr : Except Unit (Option String)) (haddr : c.ws.address.isSome = true)
    (hneg : conn = .ok false ∨
      (conn = .ok true ∧ ∃ r, addr = .ok r ∧ normAddress r = none)) :
    (step c (.monitorTick conn addr)).ws.isWalletLocked = true ∧
    (step c (.monitorTick conn addr)).ws.error.isSome = true ∧
    (step c (.monitorTick conn addr)).ws.address = c.ws.address ∧
    (step c (.monitorTick conn addr)).ws.isAuthorized = c.ws.isAuthorized := by
  have hf := monitorTick_ws_frame c conn addr
  have hlock : (step c (.monitorTick conn addr)).ws.isWalletLocked = true ∧
      (step c (.monitorTick conn addr)).ws.error.isSome = true := by
    rcases hneg with rfl | ⟨rfl, r, rfl, hnorm⟩
    · rcases addr with _ | r
      · simp [step, haddr]
      · by_cases hn : normAddress r = none <;> simp [step, haddr, hn]
    · simp [step, haddr, hnorm]
  exact ⟨hlock.1, hlock.2, hf.1, hf.2.1⟩

/-- A connected controller state used to exercise the monitor. -/
def connectedController : Controller :=
  { ws := { initialWalletState with address := some "GTEST", isAuthorized := true },
    pollingRef := none, livePolling := [], nextId := 1,
    storage := some ⟨"GTEST", true⟩ }

theorem c7_monitor_negative_signal_witness :
    connectedController.ws.address.isSome = true ∧
    (step connectedController (.monitorTick (.ok false) (.error ()))).ws.isWalletLocked = true ∧
    (step connectedController (.monitorTick (.ok false) (.error ()))).ws.address =
      connectedController.ws.address := by
  have h := c7_monitor_negative_signal connectedController (.ok false) (.error ())
    (by decide) (Or.inl rfl)
  exact ⟨by decide, h.1, h.2.2.1⟩

/-! ## Claim theorems: balance fetch -/

/-- C9: for every invalid (empty or whitespace-only) address input,
`fetchBalance` performs no network call, emits the warning, and leaves the
entire connection state — in particular `balance` — unchanged. -/
theorem c9_fetchBalance_invalid_input (acct : Except HorizonErr (List BalanceEntry))
    (publicKey : String) (s : WalletState) (h : jsTrim publicKey = "") :
    fetchBalance acct publicKey s = ⟨s, false, true⟩ := by
  unfold fetchBalance
  rw [if_pos (Or.inr h)]

theorem c9_fetchBalance_invalid_input_witness :
    jsTrim "   " = "" ∧
    fetchBalance (.ok []) "   " initialWalletState = ⟨initialWalletState, false, true⟩ :=
  ⟨by decide, c9_fetchBalance_invalid_input (.ok []) "   " initialWalletState (by decide)⟩

/-- C2: for every non-empty (post-trim) address whose ledger account lookup
fails — with a 404 or any other error — `fetchBalance` sets the balance to the
fixed fallback `"10000.00"` and changes nothing else (no error state); when the
lookup succeeds and a native-asset entry is found, the balance is set to that
entry's amount string. -/
theorem c2_fetchBalance_fallback (publicKey : String) (s : WalletState)
    (h : jsTrim publicKey ≠ "") :
    (∀ e : HorizonErr, fetchBalance (.error e) publicKey s =
      ⟨{ s with balance := some "10000.00" }, true, false⟩) ∧
    (∀ (balances : List BalanceEntry) (entry : BalanceEntry),
      balances.find? (fun b => b.asset_type == "native") = some entry →
      fetchBalance (.ok balances) publicKey s =
        ⟨{ s with balance := some entry.balance }, true, false⟩) := by
  have hcond : ¬(publicKey = "" ∨ jsTrim publicKey = "") := by
    rintro (rfl | h2)
    · exact h (by decide)
    · exact h h2
  constructor
  · intro e
    unfold fetchBalance
    rw [if_neg hcond]
    show (if e.status = some 404
        then FetchBalanceOut.mk { s with balance := some "10000.00" } true false
        else FetchBalanceOut.mk { s with balance := some "10000.00" } true false) =
      FetchBalanceOut.mk { s with balance := some "10000.00" } true false
    split <;> rfl
  · intro balances entry hfind
    unfold fetchBalance
    rw [if_neg hcond]
    show (match balances.find? (fun b => b.asset_type == "native") with
      | some nativeBalance => FetchBalanceOut.mk { s with balance := some nativeBalance.balance } true false
      | none => FetchBalanceOut.mk { s with balance := some "0" } true false) = _
    rw [hfind]

theorem c2_fetchBalance_fallback_witness :
    jsTrim "GABC" ≠ "" ∧
    fetchBalance (.error ⟨some 500⟩) "GABC" initialWalletState =
      ⟨{ initialWalletState with balance := some "10000.00" }, true, false⟩ ∧
    fetchBalance (.ok [⟨"native", "123.4567890"⟩]) "GABC" initialWalletState =
      ⟨{ initialWalletState with balance := some "123.4567890" }, true, false⟩ :=
  ⟨by decide,
   (c2_fetchBalance_fallback "GABC" initialWalletState (by decide)).1 ⟨some 500⟩,
   (c2_fetchBalance_fallback "GABC" initialWalletState (by decide)).2
     [⟨"native", "123.4567890"⟩] ⟨"native", "123.4567890"⟩ (by decide)⟩

/-! ## Claim theorems: stats fetch and stats route -/

/-- Initial stats-related component state in `PortfolioMetrics`. -/
def statsInit : StatsState :=
  { contractStats := none, statsLoading := true, statsError := none }

/-- C4: the stats fetch retries exactly 3 additional times after an initial
failure, scheduling delays of 1000, 2000 and 4000 ms; a success on attempt `j`
performs only the `j` earlier retry schedulings and no further ones; after all
retries are exhausted the component is in a terminal error state with
`statsError` set and `statsLoading` false. -/
theorem c4_stats_retry (outcomes : Nat → Option ContractStats) (s : StatsState) :
    ((∀ i, i ≤ 3 → outcomes i = none) →
      fetchContractStats outcomes 3 1000 0 s =
        (⟨s.contractStats, false,
          some "Failed to load contract statistics after multiple attempts"⟩,
         [1000, 2000, 4000])) ∧
    (∀ j data, j ≤ 3 → outcomes j = some data → (∀ i, i < j → outcomes i = none) →
      fetchContractStats outcomes 3 1000 0 s =
        (⟨some data, false, none⟩, (List.range j).map fun i => 1000 * 2 ^ i)) := by
  constructor
  · intro hall
    have h0 := hall 0 (by omega)
    have h1 := hall 1 (by omega)
    have h2 := hall 2 (by omega)
    have h3 := hall 3 (by omega)
    simp [fetchContractStats, h0, h1, h2, h3]
  · intro j data hj hsucc hfail
    interval_cases j
    · simp [fetchContractStats, hsucc]
    · have h0 := hfail 0 (by omega)
      simp [fetchContractStats, h0, hsucc, List.range_succ]
    · have h0 := hfail 0 (by omega)
      have h1 := hfail 1 (by omega)
      simp [fetchContractStats, h0, h1, hsucc, List.range_succ]
    · have h0 := hfail 0 (by omega)
      have h1 := hfail 1 (by omega)
      have h2 := hfail 2 (by omega)
      simp [fetchContractStats, h0, h1, h2, hsucc, List.range_succ]

theorem c4_stats_retry_witness :
    fetchContractStats (fun _ => none) 3 1000 0 statsInit =
      (⟨none, false,
        some "Failed to load contract statistics after multiple attempts"⟩,
       [1000, 2000, 4000]) :=
  (c4_stats_retry (fun _ => none) statsInit).1 (fun _ _ => rfl)

/-- C6: every execution of `GET /stats` — including contract failure, timeout,
missing configuration, or a throw inside the handler — responds with status 200
and a fully populated `PortfolioStats` payload whose `source` is `"blockchain"`
exactly when the contract read succeeded and `"fallback"` otherwise. -/
theorem c6_stats_route_always_ok (res : Except Unit PortfolioStats)
    (now : String) (env : StatsEnv) :
    (statsGET res now).status = 200 ∧
    (statsGET (.error ()) now).data.timestamp.isSome = true ∧
    (statsGET (.error ()) now).data.source = "fallback" ∧
    (getContractStats env).timestamp.isSome = true ∧
    ((getContractStats env).source = "blockchain" ↔ contractReadSuccess env = true) ∧
    ((getContractStats env).source = "blockchain" ∨
     (getContractStats env).source = "fallback") := by
  have hstat : (statsGET res now).status = 200 := by cases res <;> rfl
  have hmain : (getContractStats env).timestamp.isSome = true ∧
      ((getContractStats env).source = "blockchain" ↔ contractReadSuccess env = true) ∧
      ((getContractStats env).source = "blockchain" ∨
       (getContractStats env).source = "fallback") := by
    unfold getContractStats contractReadSuccess FALLBACK_DATA
    by_cases hc : env.contractId = "" ∨ jsTrim env.contractId = ""
    · have hb : (env.contractId == "" || jsTrim env.contractId == "") = true := by
        rcases hc with h | h <;> simp [h]
      rw [if_pos hc]
      simp [hb]
    · push_neg at hc
      have hb : (env.contractId == "" || jsTrim env.contractId == "") = false := by
        simp [hc.1, hc.2]
      rw [if_neg (by rintro (h | h); exact hc.1 h; exact hc.2 h)]
      rcases hsim : env.simulate with u | o
      · simp [hsim, hb]
      · rcases o with rv | _
        · rcases rv with _ | v
          · simp [hsim, hb]
          · simp [hsim, hb]
        · simp [hsim, hb]
  exact ⟨hstat, by simp [statsGET], by simp [statsGET], hmain.1, hmain.2.1, hmain.2.2⟩

/-! ## Claim theorems: refine flow -/

/-- C10: `refineStrategy` checks the contract's remaining cooldown before
composing or simulating any transaction: whenever the first cooldown read is
positive it returns the `COOLDOWN_ACTIVE` failure carrying that value without
performing any simulation; and `getCooldownRemaining` never throws, returning
`0` on any error, missing value, or non-numeric contract result. -/
theorem c10_refine_cooldown_first (env : RefineEnv) (wa : String) (pm : Rat)
    (h : getCooldownRemaining env.cooldownFirst > 0) :
    ((refineStrategy env wa pm).1.success = false ∧
     (refineStrategy env wa pm).1.error = some "COOLDOWN_ACTIVE" ∧
     (refineStrategy env wa pm).1.cooldownRemaining =
       some (getCooldownRemaining env.cooldownFirst) ∧
     RefineStep.simulate ∉ (refineStrategy env wa pm).2) ∧
    (∀ e : CooldownEnv, e.result = .error () → getCooldownRemaining e = 0) ∧
    (∀ e : CooldownEnv, e.result = .ok none → getCooldownRemaining e = 0) ∧
    (∀ (e : CooldownEnv) (v : NativeVal), e.result = .ok (some v) →
      (∀ n : Rat, v ≠ .num n) → getCooldownRemaining e = 0) := by
  have hred : refineStrategy env wa pm =
      ({ success := false,
         message := s!"Strategy refinement is on cooldown. Please wait {getCooldownRemaining env.cooldownFirst} seconds.",
         error := some "COOLDOWN_ACTIVE",
         cooldownRemaining := some (getCooldownRemaining env.cooldownFirst),
         transactionXDR := none }, [.cooldownCheck]) := by
    simp only [refineStrategy]
    rw [if_pos h]
  refine ⟨⟨?_, ?_, ?_, ?_⟩, ?_, ?_, ?_⟩
  · rw [hred]
  · rw [hred]
  · rw [hred]
  · rw [hred]
    show RefineStep.simulate ∉ [RefineStep.cooldownCheck]
    decide
  · intro e he
    unfold getCooldownRemaining
    rw [he]
  · intro e he
    unfold getCooldownRemaining
    rw [he]
  · intro e v he hv
    unfold getCooldownRemaining
    rw [he]
    cases v with
    | num n => exact absurd rfl (hv n)
    | big n => rfl
    | str t => rfl
    | arr l => rfl
    | map l => rfl
    | other => rfl

/-- Refine environment with an active cooldown on the first read. -/
def activeCooldownEnv : RefineEnv :=
  { cooldownFirst := ⟨.ok (some (.num 5))⟩, contractId := "CDID",
    accountLoad := .ok (), simulate := .ok "XDR",
    cooldownRecheck := ⟨.ok none⟩, cooldownOnThrow := ⟨.error ()⟩ }

theorem c10_refine_cooldown_first_witness :
    getCooldownRemaining activeCooldownEnv.cooldownFirst > 0 ∧
    (refineStrategy activeCooldownEnv "GWALLET" 10).1.error = some "COOLDOWN_ACTIVE" ∧
    RefineStep.simulate ∉ (refineStrategy activeCooldownEnv "GWALLET" 10).2 := by
  have h : getCooldownRemaining activeCooldownEnv.cooldownFirst > 0 := by decide
  exact ⟨h, (c10_refine_cooldown_first activeCooldownEnv "GWALLET" 10 h).1.2.1,
    (c10_refine_cooldown_first activeCooldownEnv "GWALLET" 10 h).1.2.2.2⟩

/-- C1: for every simulation-failure result whose diagnostic text contains,
case-insensitively, one of the substrings `unreachablecodereached`,
`vm call trapped`, `unreachable`, the refine flow — `refineStrategy` and the
`POST /refine` route — returns a failure tagged `COOLDOWN_ACTIVE` with a
non-negative `cooldownRemaining` (given a follow-up cooldown read that honours
the contract's non-negative-seconds interface), not `SIMULATION_FAILED`. -/
theorem c1_refine_cooldown_substring (env : RouteEnv) (wa : String)
    (pm : Option Rat) (errField jsonText : String)
    (hguard : ¬ getCooldownRemaining env.refineEnv.cooldownFirst > 0)
    (hcfg : ¬(env.refineEnv.contractId = "" ∨ jsTrim env.refineEnv.contractId = ""))
    (hacc : env.refineEnv.accountLoad = .ok ())
    (hsim : env.refineEnv.simulate = .fail errField jsonText)
    (hneedle :
      "unreachablecodereached".toList <:+: (jsToLower jsonText).toList ∨
      "vm call trapped".toList <:+: (jsToLower jsonText).toList ∨
      "unreachable".toList <:+: (jsToLower jsonText).toList)
    (hcd : 0 ≤ getCooldownRemaining env.refineEnv.cooldownRecheck)
    (hwa : wa ≠ "") :
    ((refineStrategy env.refineEnv wa (pm.getD 10)).1.success = false ∧
     (refineStrategy env.refineEnv wa (pm.getD 10)).1.error = some "COOLDOWN_ACTIVE" ∧
     (∃ r, (refineStrategy env.refineEnv wa (pm.getD 10)).1.cooldownRemaining = some r ∧
       0 ≤ r)) ∧
    ((refinePOST (.ok ⟨some wa, pm⟩) env).status = 400 ∧
     (refinePOST (.ok ⟨some wa, pm⟩) env).error = some "COOLDOWN_ACTIVE" ∧
     (∃ r, (refinePOST (.ok ⟨some wa, pm⟩) env).cooldownRemaining = some r ∧ 0 ≤ r)) := by
  have hb : (containsSubstring (jsToLower jsonText) "unreachablecodereached" ||
             containsSubstring (jsToLower jsonText) "vm call trapped" ||
             containsSubstring (jsToLower jsonText) "unreachable") = true := by
    rcases hneedle with h | h | h
    · simp [(containsSubstring_iff _ _).mpr h]
    · simp [(containsSubstring_iff _ _).mpr h]
    · simp [(containsSubstring_iff _ _).mpr h]
  have hserv : refineStrategy env.refineEnv wa (pm.getD 10) =
      ({ success := false,
         message := s!"Strategy refinement is on cooldown. Please wait {getCooldownRemaining env.refineEnv.cooldownRecheck} seconds.",
         error := some "COOLDOWN_ACTIVE",
         cooldownRemaining := some (getCooldownRemaining env.refineEnv.cooldownRecheck),
         transactionXDR := none },
       [.cooldownCheck, .accountLoad, .simulate, .cooldownRecheck]) := by
    simp only [refineStrategy, hacc, hsim]
    rw [if_neg hguard, if_neg hcfg]
    simp [hb]
  have hroute : refinePOST (.ok ⟨some wa, pm⟩) env =
      relayResult 400 (refineStrategy env.refineEnv wa (pm.getD 10)).1 := by
    simp only [refinePOST]
    rw [if_neg hwa]
    rw [if_pos (by rw [hserv]; exact ⟨rfl, rfl⟩)]
  refine ⟨⟨?_, ?_, ?_⟩, ?_, ?_, ?_⟩
  · rw [hserv]
  · rw [hserv]
  · exact ⟨getCooldownRemaining env.refineEnv.cooldownRecheck, by rw [hserv], hcd⟩
  · rw [hroute]; rfl
  · rw [hroute, hserv]; rfl
  · exact ⟨getCooldownRemaining env.refineEnv.cooldownRecheck,
      by rw [hroute, hserv]; rfl, hcd⟩

/-- Route environment whose simulation fails with a cooldown-panic diagnostic. -/
def cooldownPanicEnv : RouteEnv :=
  { refineEnv :=
      { cooldownFirst := ⟨.ok (some (.num 0))⟩, contractId := "CDID",
        accountLoad := .ok (),
        simulate := .fail "HostError"
          "Error: host invocation failed, VM call trapped: UnreachableCodeReached",
        cooldownRecheck := ⟨.ok (some (.num 37))⟩,
        cooldownOnThrow := ⟨.ok none⟩ },
    routeCooldown := ⟨.ok none⟩ }

theorem c1_refine_cooldown_substring_witness :
    (refineStrategy cooldownPanicEnv.refineEnv "GWALLET" 10).1.error =
      some "COOLDOWN_ACTIVE" ∧
    (refinePOST (.ok ⟨some "GWALLET", none⟩) cooldownPanicEnv).status = 400 ∧
    (refinePOST (.ok ⟨some "GWALLET", none⟩) cooldownPanicEnv).error =
      some "COOLDOWN_ACTIVE" := by
  have h := c1_refine_cooldown_substring cooldownPanicEnv "GWALLET" none "HostError"
    "Error: host invocation failed, VM call trapped: UnreachableCodeReached"
    (by decide) (by decide) rfl rfl (Or.inl (by decide)) (by decide) (by decide)
  exact ⟨h.1.2.1, h.2.1, h.2.2.1⟩

end Portfolio
